import Mathlib

/-!
A verification development for the Garmin JSON-to-CSV parser (`parser.py`).

The Python source is shallowly embedded:
  - strings are modelled as `List Char` (Python `str` values are sequences of
    code points; `Char.toNat` is the code point);
  - Python `datetime` objects are modelled by the structure `PyDateTime` whose
    `tz` field is `none` for naive datetimes and `some m` for an attached
    fixed offset of `m` minutes;
  - `datetime.fromisoformat` (CPython pre-3.11, the dialect the source works
    around: it rejects a trailing Z and colon-less offsets) and
    `datetime.strptime` at the three format strings used by the source are
    modelled as explicit recursive parsers returning `Option`;
  - a raised-and-caught `ValueError` is modelled by `none`;
  - exceptions the source does not catch abort the Python process: the
    normalizer catches only `ValueError`, so the `OverflowError` that
    `astimezone` raises when the UTC-converted result falls outside years
    1-9999, and the `TypeError` raised when a non-string truthy value meets
    the string tests or a non-numeric value meets the seconds arithmetic,
    escape.  These uncaught aborts are modelled by `Except.error`;
  - `astimezone(timezone.utc)` recomputes the Gregorian fields from the
    instant, raising `OverflowError` when the result is unrepresentable.
    For a naive datetime CPython would use the system timezone; the model
    fixes the environment timezone to UTC (the only inputs that can reach
    `astimezone` naive are degenerate strings in which the timezone
    indicator is not an actual offset, e.g. a nonstandard date/time separator).
-/

namespace GarminCsv

/-! ### Characters and digits -/

def digitChar (n : Nat) : Char :=
  if n = 0 then '0' else if n = 1 then '1' else if n = 2 then '2'
  else if n = 3 then '3' else if n = 4 then '4' else if n = 5 then '5'
  else if n = 6 then '6' else if n = 7 then '7' else if n = 8 then '8' else '9'

/-- Parse one decimal digit character, as Python `int(c)` would accept inside
the fixed-width fields of the formats below. -/
def parseDigit (c : Char) : Option Nat :=
  if c.isDigit then some (c.toNat - 48) else none

theorem digitChar_isDigit (n : Nat) : (digitChar n).isDigit = true := by
  unfold digitChar
  repeat' split
  all_goals decide

theorem digitChar_eq_cases (n : Nat) :
    digitChar n = '0' ∨ digitChar n = '1' ∨ digitChar n = '2' ∨ digitChar n = '3' ∨
    digitChar n = '4' ∨ digitChar n = '5' ∨ digitChar n = '6' ∨ digitChar n = '7' ∨
    digitChar n = '8' ∨ digitChar n = '9' := by
  unfold digitChar
  repeat' split
  all_goals simp

theorem digitChar_toNat (n : Nat) (h : n ≤ 9) : (digitChar n).toNat = 48 + n := by
  interval_cases n <;> rfl

theorem parseDigit_digitChar (n : Nat) (h : n ≤ 9) : parseDigit (digitChar n) = some n := by
  unfold parseDigit
  rw [if_pos (digitChar_isDigit n), digitChar_toNat n h]
  congr 1
  omega

/-! Characters that can never be produced by `digitChar`, as `simp` lemmas in
both orientations of `==`, used to evaluate the string-shape tests of the
normalizer on rendered timestamps. -/

theorem digitChar_beq_false {c : Char} (hc : c.isDigit = false) (n : Nat) :
    (digitChar n == c) = false := by
  cases h : digitChar n == c
  · rfl
  · exact absurd (eq_of_beq h ▸ digitChar_isDigit n) (by simp [hc])

theorem beq_digitChar_false {c : Char} (hc : c.isDigit = false) (n : Nat) :
    (c == digitChar n) = false := by
  cases h : c == digitChar n
  · rfl
  · exact absurd (eq_of_beq h ▸ hc) (by simp [digitChar_isDigit n])

@[simp] theorem digitChar_beq_dot (n : Nat) : (digitChar n == '.') = false :=
  digitChar_beq_false (by decide) n

@[simp] theorem dot_beq_digitChar (n : Nat) : ('.' == digitChar n) = false :=
  beq_digitChar_false (by decide) n

@[simp] theorem digitChar_beq_colon (n : Nat) : (digitChar n == ':') = false :=
  digitChar_beq_false (by decide) n

@[simp] theorem colon_beq_digitChar (n : Nat) : (':' == digitChar n) = false :=
  beq_digitChar_false (by decide) n

@[simp] theorem digitChar_beq_plus (n : Nat) : (digitChar n == '+') = false :=
  digitChar_beq_false (by decide) n

@[simp] theorem plus_beq_digitChar (n : Nat) : ('+' == digitChar n) = false :=
  beq_digitChar_false (by decide) n

@[simp] theorem digitChar_beq_dash (n : Nat) : (digitChar n == '-') = false :=
  digitChar_beq_false (by decide) n

@[simp] theorem dash_beq_digitChar (n : Nat) : ('-' == digitChar n) = false :=
  beq_digitChar_false (by decide) n

@[simp] theorem digitChar_beq_upperZ (n : Nat) : (digitChar n == 'Z') = false :=
  digitChar_beq_false (by decide) n

@[simp] theorem upperZ_beq_digitChar (n : Nat) : ('Z' == digitChar n) = false :=
  beq_digitChar_false (by decide) n

@[simp] theorem digitChar_beq_upperT (n : Nat) : (digitChar n == 'T') = false :=
  digitChar_beq_false (by decide) n

@[simp] theorem upperT_beq_digitChar (n : Nat) : ('T' == digitChar n) = false :=
  beq_digitChar_false (by decide) n

@[simp] theorem digitChar_ne_upperZ (n : Nat) : ¬ digitChar n = 'Z' := by
  intro h
  have := digitChar_isDigit n
  rw [h] at this
  exact absurd this (by decide)

/-! ### Fixed-width numeric fields -/

def parse2 : List Char → Option (Nat × List Char)
  | c1 :: c2 :: rest =>
    match parseDigit c1, parseDigit c2 with
    | some a, some b => some (10 * a + b, rest)
    | _, _ => none
  | _ => none

def parse4 : List Char → Option (Nat × List Char)
  | c1 :: c2 :: c3 :: c4 :: rest =>
    match parseDigit c1, parseDigit c2, parseDigit c3, parseDigit c4 with
    | some a, some b, some c, some d => some (1000 * a + 100 * b + 10 * c + d, rest)
    | _, _, _, _ => none
  | _ => none

def expectChar (c : Char) : List Char → Option (List Char)
  | [] => none
  | c1 :: rest => if c1 = c then some rest else none

/-- Greedy run of decimal digits: accumulated value, digit count, remainder. -/
def spanDigits : List Char → Nat → Nat → Nat × Nat × List Char
  | [], acc, cnt => (acc, cnt, [])
  | c :: rest, acc, cnt =>
    if c.isDigit then spanDigits rest (10 * acc + (c.toNat - 48)) (cnt + 1)
    else (acc, cnt, c :: rest)

def render2 (n : Nat) : List Char := [digitChar (n / 10), digitChar (n % 10)]

def render3 (n : Nat) : List Char := [digitChar (n / 100), digitChar (n / 10 % 10), digitChar (n % 10)]

def render4 (n : Nat) : List Char :=
  [digitChar (n / 1000), digitChar (n / 100 % 10), digitChar (n / 10 % 10), digitChar (n % 10)]

theorem parse2_render2 (n : Nat) (h : n ≤ 99) (rest : List Char) :
    parse2 (render2 n ++ rest) = some (n, rest) := by
  have h1 : n / 10 ≤ 9 := by omega
  have h2 : n % 10 ≤ 9 := by omega
  simp only [render2, List.cons_append, List.nil_append, parse2,
    parseDigit_digitChar _ h1, parseDigit_digitChar _ h2]
  congr 1
  congr 1
  omega

theorem parse4_render4 (n : Nat) (h : n ≤ 9999) (rest : List Char) :
    parse4 (render4 n ++ rest) = some (n, rest) := by
  have h1 : n / 1000 ≤ 9 := by omega
  have h2 : n / 100 % 10 ≤ 9 := by omega
  have h3 : n / 10 % 10 ≤ 9 := by omega
  have h4 : n % 10 ≤ 9 := by omega
  simp only [render4, List.cons_append, List.nil_append, parse4,
    parseDigit_digitChar _ h1, parseDigit_digitChar _ h2,
    parseDigit_digitChar _ h3, parseDigit_digitChar _ h4]
  congr 1
  congr 1
  omega

theorem spanDigits_render3 (f : Nat) (hf : f ≤ 999) (c : Char) (hc : c.isDigit = false)
    (rest : List Char) :
    spanDigits (render3 f ++ c :: rest) 0 0 = (f, 3, c :: rest) := by
  have h1 : f / 100 ≤ 9 := by omega
  simp only [render3, List.cons_append, List.nil_append, spanDigits,
    digitChar_isDigit, if_true, hc, if_false, Bool.false_eq_true,
    digitChar_toNat _ h1, digitChar_toNat _ (by omega : f / 10 % 10 ≤ 9),
    digitChar_toNat _ (by omega : f % 10 ≤ 9)]
  congr 2
  omega

/-! ### The Python `datetime` model -/

def isLeap (y : Nat) : Bool := (y % 4 == 0 && y % 100 != 0) || y % 400 == 0

def daysInMonth (y m : Nat) : Nat :=
  if m = 2 then (if isLeap y then 29 else 28)
  else if m = 4 ∨ m = 6 ∨ m = 9 ∨ m = 11 then 30
  else 31

/-- A Python `datetime.datetime` value: Gregorian fields, microseconds, and an
optional fixed utcoffset in minutes (`none` models a naive datetime). -/
structure PyDateTime where
  year : Nat
  month : Nat
  day : Nat
  hour : Nat
  minute : Nat
  second : Nat
  usec : Nat
  tz : Option Int
deriving DecidableEq, Repr

/-- Validation performed by the `datetime` constructor; a failure is a
`ValueError`, modelled as `none`.  (`MINYEAR = 1`, `MAXYEAR = 9999`.) -/
def mkPyDateTime (y mo d h mi s us : Nat) (tz : Option Int) : Option PyDateTime :=
  if 1 ≤ y ∧ y ≤ 9999 ∧ 1 ≤ mo ∧ mo ≤ 12 ∧ 1 ≤ d ∧ d ≤ daysInMonth y mo ∧
     h ≤ 23 ∧ mi ≤ 59 ∧ s ≤ 59 ∧ us ≤ 999999
  then some ⟨y, mo, d, h, mi, s, us, tz⟩ else none

/-- Julian day number of a Gregorian date (valid for `1 ≤ m ≤ 12`, `y ≥ 1`). -/
def julianDayNumber (y m d : Nat) : Int :=
  let a : Nat := (14 - m) / 12
  let y2 : Nat := y + 4800 - a
  let m2 : Nat := m + 12 * a - 3
  (d : Int) + ((153 * m2 + 2) / 5 : Nat) + 365 * (y2 : Int) + ((y2 / 4 : Nat) : Int)
    - ((y2 / 100 : Nat) : Int) + ((y2 / 400 : Nat) : Int) - 32045

/-- Days since the Unix epoch 1970-01-01 (JDN 2440588). -/
def daysFromCivil (y m d : Nat) : Int := julianDayNumber y m d - 2440588

/-- The naive instant of the Gregorian fields, in microseconds since epoch. -/
def civilUsec (y mo d h mi s us : Nat) : Int :=
  daysFromCivil y mo d * 86400000000 + ((h * 3600 + mi * 60 + s : Nat) : Int) * 1000000 + us

/-- Microseconds since the Unix epoch of a `PyDateTime`; a naive value is
taken at face value (the model fixes the environment timezone to UTC). -/
def toEpochUsec (dt : PyDateTime) : Int :=
  civilUsec dt.year dt.month dt.day dt.hour dt.minute dt.second dt.usec -
    (match dt.tz with
     | some off => off * 60000000
     | none => 0)

/-- Inverse direction: Gregorian date from a count of days since the epoch
(the Howard Hinnant `civil_from_days` algorithm). -/
def civilFromDays (z0 : Int) : Nat × Nat × Nat :=
  let z : Int := z0 + 719468
  let era : Int := z.fdiv 146097
  let doe : Nat := (z.fmod 146097).toNat
  let yoe : Nat := (doe - doe / 1460 + doe / 36524 - doe / 146096) / 365
  let doy : Nat := doe - (365 * yoe + yoe / 4 - yoe / 100)
  let mp : Nat := (5 * doy + 2) / 153
  let d : Nat := doy - (153 * mp + 2) / 5 + 1
  let m : Nat := if mp < 10 then mp + 3 else mp - 9
  ((((yoe : Int) + era * 400 + (if m ≤ 2 then 1 else 0)).toNat), m, d)

def fromEpochUsec (i : Int) : PyDateTime :=
  let usec : Nat := (i.fmod 1000000).toNat
  let tsec : Int := (i - usec).fdiv 1000000
  let days : Int := tsec.fdiv 86400
  let sod : Nat := (tsec.fmod 86400).toNat
  let ymd := civilFromDays days
  { year := ymd.1, month := ymd.2.1, day := ymd.2.2,
    hour := sod / 3600, minute := sod % 3600 / 60, second := sod % 60,
    usec := usec, tz := some 0 }

/-- An exception the source does not catch; raising one aborts the run. -/
inductive PyError where
  | overflowError : PyError
  | typeError : PyError
deriving DecidableEq, Repr

instance {ε α : Type} [DecidableEq ε] [DecidableEq α] : DecidableEq (Except ε α) := fun x y =>
  match x, y with
  | Except.ok a, Except.ok b => decidable_of_iff (a = b) (by simp)
  | Except.ok _, Except.error _ => isFalse (by simp)
  | Except.error _, Except.ok _ => isFalse (by simp)
  | Except.error e, Except.error f => decidable_of_iff (e = f) (by simp)

/-- The instant of `datetime.min` (0001-01-01 00:00:00). -/
def minDatetimeUsec : Int := civilUsec 1 1 1 0 0 0 0

/-- The instant of `datetime.max` (9999-12-31 23:59:59.999999). -/
def maxDatetimeUsec : Int := civilUsec 9999 12 31 23 59 59 999999

/-- `dt.astimezone(timezone.utc)`: re-express the instant in UTC.  CPython
computes `self - utcoffset`, and that datetime subtraction raises
`OverflowError` when the result falls outside years 1-9999; the normalizer
catches only `ValueError`, so this error aborts the run. -/
def astimezoneUtc (dt : PyDateTime) : Except PyError PyDateTime :=
  let i := toEpochUsec dt
  if minDatetimeUsec ≤ i ∧ i ≤ maxDatetimeUsec then Except.ok (fromEpochUsec i)
  else Except.error PyError.overflowError

/-- `dt.replace(tzinfo=timezone.utc)`. -/
def replaceTzUtc (dt : PyDateTime) : PyDateTime := { dt with tz := some 0 }

/-! ### `datetime.fromisoformat` (CPython pre-3.11 dialect) -/

structure IsoTimeParts where
  hour : Nat
  minute : Nat
  second : Nat
  usec : Nat
  tz : Option Int
deriving DecidableEq, Repr

/-- Offset suffix `±HH:MM`.  The sign may be `+` or `-`; the offset must be
strictly less than 24 hours (`timezone` raises otherwise, modelled as `none`).
A colon-less offset is rejected, which is exactly why the source inserts a
colon before calling `fromisoformat`.  Offsets carrying a seconds component
are not modelled; no call site can produce one. -/
def parseOffsetTail : List Char → Option Int
  | c :: r =>
    if c = '+' ∨ c = '-' then
      (parse2 r).bind fun ohr =>
      (expectChar ':' ohr.2).bind fun r2 =>
      (parse2 r2).bind fun omr =>
      match omr.2 with
      | [] =>
        if ohr.1 * 60 + omr.1 < 1440 then
          some ((if c = '+' then 1 else -1) * ((ohr.1 * 60 + omr.1 : Nat) : Int))
        else none
      | _ => none
    else none
  | [] => none

/-- Fractional-seconds suffix: exactly 3 or 6 digits (the pre-3.11 rule),
then either the end of the string or an offset. -/
def parseFracThenOffset (s : List Char) : Option (Nat × Option Int) :=
  let sp := spanDigits s 0 0
  let v := sp.1
  let cnt := sp.2.1
  let rest := sp.2.2
  if cnt = 3 ∨ cnt = 6 then
    let us := if cnt = 3 then v * 1000 else v
    match rest with
    | [] => some (us, none)
    | _ => (parseOffsetTail rest).map fun off => (us, some off)
  else none

/-- Time-of-day portion `HH[:MM[:SS[.fff or .ffffff]]][±HH:MM]`. -/
def parseIsoTime (s : List Char) : Option IsoTimeParts :=
  (parse2 s).bind fun hr =>
  match hr.2 with
  | [] => some ⟨hr.1, 0, 0, 0, none⟩
  | ':' :: r1 =>
    (parse2 r1).bind fun mir =>
    match mir.2 with
    | [] => some ⟨hr.1, mir.1, 0, 0, none⟩
    | ':' :: r2 =>
      (parse2 r2).bind fun sr =>
      match sr.2 with
      | [] => some ⟨hr.1, mir.1, sr.1, 0, none⟩
      | '.' :: r3 =>
        (parseFracThenOffset r3).map fun fo => ⟨hr.1, mir.1, sr.1, fo.1, fo.2⟩
      | rest => (parseOffsetTail rest).map fun off => ⟨hr.1, mir.1, sr.1, 0, some off⟩
    | rest => (parseOffsetTail rest).map fun off => ⟨hr.1, mir.1, 0, 0, some off⟩
  | rest => (parseOffsetTail rest).map fun off => ⟨hr.1, 0, 0, 0, some off⟩

/-- `datetime.fromisoformat` as available before CPython 3.11: a strict
`YYYY-MM-DD` date, optionally followed by a single separator character (any
character) and a time-of-day with optional fraction and offset. -/
def fromisoformat (s : List Char) : Option PyDateTime :=
  (parse4 s).bind fun yr =>
  (expectChar '-' yr.2).bind fun r1 =>
  (parse2 r1).bind fun mor =>
  (expectChar '-' mor.2).bind fun r2 =>
  (parse2 r2).bind fun dr =>
  match dr.2 with
  | [] => mkPyDateTime yr.1 mor.1 dr.1 0 0 0 0 none
  | _sep :: rest =>
    (parseIsoTime rest).bind fun t =>
    mkPyDateTime yr.1 mor.1 dr.1 t.hour t.minute t.second t.usec t.tz

/-! ### `datetime.strptime` at the three formats used by the source. -/

/-- A one-or-two-digit field, as the CPython `_strptime` regexes for `%m`,
`%d`, `%H`, `%M` and `%S` accept it: two digits are consumed when two are
present (in this format every field is followed by a non-digit literal or
the end, so regex backtracking to one digit can never rescue a parse that
the greedy reading plus the constructor range check rejects, and both
readings agree on every accepted string). -/
def parse1or2 : List Char → Option (Nat × List Char)
  | [] => none
  | c1 :: rest =>
    match parseDigit c1 with
    | none => none
    | some a =>
      match rest with
      | [] => some (a, [])
      | c2 :: rest2 =>
        match parseDigit c2 with
        | some b => some (10 * a + b, rest2)
        | none => some (a, c2 :: rest2)

/-- `strptime(s, "%Y-%m-%dT%H:%M:%S.%f")`: the result is naive.  `%Y` is
exactly four digits, the other numeric fields accept one or two digits
(CPython admits non-zero-padded values here, and this branch of the source
has no length guard), and `%f` is one to six digits, left-padded to
microseconds. -/
def strptimeFull (s : List Char) : Option PyDateTime :=
  (parse4 s).bind fun yr =>
  (expectChar '-' yr.2).bind fun r1 =>
  (parse1or2 r1).bind fun mor =>
  (expectChar '-' mor.2).bind fun r2 =>
  (parse1or2 r2).bind fun dr =>
  (expectChar 'T' dr.2).bind fun r3 =>
  (parse1or2 r3).bind fun hr =>
  (expectChar ':' hr.2).bind fun r4 =>
  (parse1or2 r4).bind fun mir =>
  (expectChar ':' mir.2).bind fun r5 =>
  (parse1or2 r5).bind fun sr =>
  (expectChar '.' sr.2).bind fun r6 =>
  let sp := spanDigits r6 0 0
  if 1 ≤ sp.2.1 ∧ sp.2.1 ≤ 6 ∧ sp.2.2 = [] then
    mkPyDateTime yr.1 mor.1 dr.1 hr.1 mir.1 sr.1 (sp.1 * 10 ^ (6 - sp.2.1)) none
  else none

/-- `strptime(s, "%Y-%m-%dT%H:%M:%S")`: the result is naive.  Modelled
fixed-width: the caller guards this branch with `len(ts_str) == 19`, and 19
characters force every field to its padded width (a shorter, non-padded
field can never be compensated, since each field is already at the maximal
width its regex accepts). -/
def strptimeNoFrac (s : List Char) : Option PyDateTime :=
  (parse4 s).bind fun yr =>
  (expectChar '-' yr.2).bind fun r1 =>
  (parse2 r1).bind fun mor =>
  (expectChar '-' mor.2).bind fun r2 =>
  (parse2 r2).bind fun dr =>
  (expectChar 'T' dr.2).bind fun r3 =>
  (parse2 r3).bind fun hr =>
  (expectChar ':' hr.2).bind fun r4 =>
  (parse2 r4).bind fun mir =>
  (expectChar ':' mir.2).bind fun r5 =>
  (parse2 r5).bind fun sr =>
  match sr.2 with
  | [] => mkPyDateTime yr.1 mor.1 dr.1 hr.1 mir.1 sr.1 0 none
  | _ => none

/-- `strptime(s, "%Y-%m-%d")`: the result is naive.  Modelled fixed-width:
the caller guards this branch with `len(ts_str) == 10`, which forces the
padded `YYYY-MM-DD` shape for the same reason as in `strptimeNoFrac`. -/
def strptimeDate (s : List Char) : Option PyDateTime :=
  (parse4 s).bind fun yr =>
  (expectChar '-' yr.2).bind fun r1 =>
  (parse2 r1).bind fun mor =>
  (expectChar '-' mor.2).bind fun r2 =>
  (parse2 r2).bind fun dr =>
  match dr.2 with
  | [] => mkPyDateTime yr.1 mor.1 dr.1 0 0 0 0 none
  | _ => none

/-! ### Python string-shape helpers used by `parse_garmin_timestamp` -/

/-- Python `ts_str[10:] `. -/
def pyDropTen (s : List Char) : List Char := s.drop 10

/-- The timezone-indicator test on line 32 of the source:
`'Z' in ts_str or '+' in ts_str or '-' in ts_str[10:]`. -/
def hasTimezoneIndicator (s : List Char) : Bool :=
  s.contains 'Z' || s.contains '+' || (pyDropTen s).contains '-'

/-- Python `ts_str.endswith('Z')`. -/
def pyEndsWithZ (s : List Char) : Bool := s.getLast? == some 'Z'

/-- Python `ts_str[:-k]` (for `k ≤ len` this drops the last `k` characters;
Python clamps, and so does `List.take` with truncated subtraction). -/
def pySliceToEnd (s : List Char) (k : Nat) : List Char := s.take (s.length - k)

/-- Python `ts_str[-k:]`. -/
def pySliceFromEnd (s : List Char) (k : Nat) : List Char := s.drop (s.length - k)

/-- Python `ts_str[-3:-2]`, a (possibly empty) slice. -/
def pySliceNeg3Neg2 (s : List Char) : List Char :=
  if 3 ≤ s.length then (s.drop (s.length - 3)).take 1 else []

/-- Python `ts_str[-k]`; every use in the source is guarded by a length
check, so the `Option` never surfaces. -/
def pyCharFromEnd (s : List Char) (k : Nat) : Option Char :=
  (s.drop (s.length - k)).head?

/-- Lift the per-branch parse result (where `none` is a caught
`ValueError`) through the final `astimezone(timezone.utc)` of line 59,
whose `OverflowError` is not caught. -/
def finishAstimezone (dt? : Option PyDateTime) : Except PyError (Option PyDateTime) :=
  match dt? with
  | none => Except.ok none
  | some dt => (astimezoneUtc dt).map some

/-- The body of `parse_garmin_timestamp` for a truthy string (lines 30-62):
branch classification, per-branch parse, and the final
`astimezone(timezone.utc)`. -/
def parseGarminChars (ts : List Char) : Except PyError (Option PyDateTime) :=
  if ts.contains '.' && hasTimezoneIndicator ts then
    -- Handle Z for UTC
    let ts1 := if pyEndsWithZ ts then pySliceToEnd ts 1 ++ ['+', '0', '0', ':', '0', '0'] else ts
    -- Handle timezone offsets like +02:00 or -0700
    let dt? :=
      if pySliceNeg3Neg2 ts1 = [':'] then fromisoformat ts1
      else if 6 < ts1.length ∧ (pyCharFromEnd ts1 5 = some '+' ∨ pyCharFromEnd ts1 5 = some '-') ∧
              ¬ pyCharFromEnd ts1 3 = some ':' then
        fromisoformat (pySliceToEnd ts1 2 ++ ':' :: pySliceFromEnd ts1 2)
      else fromisoformat ts1
    finishAstimezone dt?
  else if ts.contains '.' then
    finishAstimezone ((strptimeFull ts).map replaceTzUtc)
  else if ts.contains 'T' && ts.length == 19 then
    finishAstimezone ((strptimeNoFrac ts).map replaceTzUtc)
  else if ts.length == 10 && ts.contains '-' then
    finishAstimezone ((strptimeDate ts).map replaceTzUtc)
  else
    -- unrecognized format: a warning is printed and None returned
    Except.ok none

/-! ### Date-range filter -/

/-- `START_DATE_FILTER = datetime(2020, 2, 1, tzinfo=timezone.utc)`. -/
def START_DATE_FILTER : PyDateTime := ⟨2020, 2, 1, 0, 0, 0, 0, some 0⟩

/-- `END_DATE_FILTER = datetime(2025, 6, 30, tzinfo=timezone.utc)`. -/
def END_DATE_FILTER : PyDateTime := ⟨2025, 6, 30, 0, 0, 0, 0, some 0⟩

/-- Comparison of two aware datetimes compares their instants (Python
semantics for offset-aware comparison). -/
def pyDateTimeLe (a b : PyDateTime) : Bool := toEpochUsec a ≤ toEpochUsec b

/-- `is_in_date_range(dt_obj)` (lines 64-70). -/
def is_in_date_range (dt? : Option PyDateTime) : Bool :=
  match dt? with
  | none => false
  | some dt =>
    -- Ensure dt_obj is timezone-aware (UTC) for comparison
    let dt := if dt.tz = none then replaceTzUtc dt else dt
    pyDateTimeLe START_DATE_FILTER dt && pyDateTimeLe dt END_DATE_FILTER

/-! ### CSV field formatting -/

/-- `strftime("%Y-%m-%dT%H:%M:%S")`: fractional seconds are dropped here,
on CSV output. -/
def format_datetime_csv (dt : PyDateTime) : List Char :=
  render4 dt.year ++ '-' :: render2 dt.month ++ '-' :: render2 dt.day ++
    'T' :: render2 dt.hour ++ ':' :: render2 dt.minute ++ ':' :: render2 dt.second

/-- `strftime("%Y-%m-%d")`. -/
def format_date_csv (dt : PyDateTime) : List Char :=
  render4 dt.year ++ '-' :: render2 dt.month ++ '-' :: render2 dt.day

/-! ### Generic JSON values and `safe_get` -/

/-- A decoded JSON value.  Numbers are modelled as integers: every numeric
field the extractors read (sleep seconds, heart rates, scores) is an integer
in the Garmin export. -/
inductive Json where
  | null : Json
  | bool : Bool → Json
  | num : Int → Json
  | str : List Char → Json
  | arr : List Json → Json
  | obj : List (String × Json) → Json

/-- Python `dict` lookup.  `json.load` builds the dict left to right, so a
duplicated key keeps the last occurrence. -/
def objGet (k : String) : List (String × Json) → Option Json
  | [] => none
  | (k1, v) :: rest =>
    match objGet k rest with
    | some r => some r
    | none => if k1 = k then some v else none

/-- One step of `safe_get`: `data[key]` if `data` is a dict containing
`key`, otherwise the failure that makes `safe_get` return its default. -/
def topGet (j : Json) (k : String) : Option Json :=
  match j with
  | Json.obj fields => objGet k fields
  | _ => none

/-- `safe_get(data, keys)` with default `None` (lines 17-24); call sites
with a different default apply `Option.getD`. -/
def safe_get (j : Json) : List String → Option Json
  | [] => some j
  | k :: ks =>
    match topGet j k with
    | some v => safe_get v ks
    | none => none

/-- Python truthiness of a decoded JSON value: `None`, `False`, `0`, the
empty string, the empty list and the empty dict are falsy. -/
def jsonTruthy : Json → Bool
  | Json.null => false
  | Json.bool b => b
  | Json.num n => decide (¬ n = 0)
  | Json.str s => ¬ s.isEmpty
  | Json.arr l => ¬ l.isEmpty
  | Json.obj l => ¬ l.isEmpty

/-- `parse_garmin_timestamp(ts_str)` applied to the raw looked-up value:
`None` and every other falsy value hit `if not ts_str` and return `None`;
a truthy string goes through the branch classification; a truthy non-string
raises an uncaught `TypeError` at the first string test (line 32), aborting
the run. -/
def parse_garmin_timestamp (ts : Option Json) : Except PyError (Option PyDateTime) :=
  match ts with
  | none => Except.ok none
  | some v =>
    if jsonTruthy v = false then Except.ok none
    else
      match v with
      | Json.str s => parseGarminChars s
      | _ => Except.error PyError.typeError

/-- Value of a seconds field in the arithmetic of lines 210 and 222-224:
JSON numbers are Python ints and JSON booleans are ints too (`bool` is an
`int` subclass, `True` counts as 1); any other present value makes that
arithmetic raise an uncaught exception, aborting the run.  (For some
non-numeric combinations CPython raises at the comparison rather than at
the addition, but it aborts either way.) -/
def pyNumValue : Json → Except PyError Int
  | Json.num n => Except.ok n
  | Json.bool b => Except.ok (if b then 1 else 0)
  | _ => Except.error PyError.typeError

/-! ### Rounding -/

/-- Python `round(n / 60)` for an integer `n`: round-half-to-even.  The
quotient `n / 60` of moderately sized integers is exact in binary floating
point whenever it is a half-integer, so round-half-to-even applies exactly. -/
def pyRound60 (n : Int) : Int :=
  let q := n.fdiv 60
  let r := n.fmod 60
  if r < 30 then q
  else if 30 < r then q + 1
  else if q.fmod 2 = 0 then q else q + 1

/-! ### Row extraction, one function per output table -/

structure BioRow where
  datetime : List Char
  resting_hr : Json
  hrv : Json
  stress_level : Json
  body_battery : Json
  spo2 : Json
  respiration_rate : Json

/-- The per-record body of `process_user_biometrics` (lines 113-141):
`ok none` when the record is dropped by parsing or the date filter, and an
error when the timestamp value aborts the run. -/
def bioRow (record : Json) : Except PyError (Option BioRow) :=
  match parse_garmin_timestamp (safe_get record ["metaData", "calendarDate"]) with
  | Except.error e => Except.error e
  | Except.ok none => Except.ok none
  | Except.ok (some dt) =>
    if is_in_date_range (some dt) then
      Except.ok (some
        { datetime := format_datetime_csv dt
          resting_hr := (safe_get record ["restingHeartRate"]).getD (Json.str [])
          hrv := Json.str []
          stress_level := Json.str []
          body_battery := Json.str []
          spo2 := Json.str []
          respiration_rate := Json.str [] })
    else Except.ok none

structure SleepRow where
  date : List Char
  sleep_duration : Int
  deep_sleep : Int
  rem_sleep : Int
  light_sleep : Int
  wake_time : Int
  sleep_score : Json
  resting_hr_sleep : Json
  hrv_sleep : Json

/-- The wake-minutes computation of line 213,
`round(awake_seconds / 60) if awake_seconds else 0`: the truthiness guard
runs first, so a falsy value (absent field, 0, `None`, `False`, an empty
string) yields 0 and still emits the row; a truthy non-numeric value makes
the division raise, aborting the run. -/
def pyWakeMinutes (v : Json) : Except PyError Int :=
  if jsonTruthy v = false then Except.ok 0
  else (pyNumValue v).map pyRound60

/-- The per-record body of `process_sleep_data` (lines 190-230), in the
evaluation order of the source: the date filter, then the two GMT
timestamp parses (whose results feed only the dead `duration_seconds`
binding but whose uncaught exceptions abort the run), then the seconds
arithmetic. -/
def sleepRow (record : Json) : Except PyError (Option SleepRow) :=
  match parse_garmin_timestamp (safe_get record ["calendarDate"]) with
  | Except.error e => Except.error e
  | Except.ok none => Except.ok none
  | Except.ok (some dt) =>
    if is_in_date_range (some dt) then
      match parse_garmin_timestamp (safe_get record ["sleepStartTimestampGMT"]) with
      | Except.error e => Except.error e
      | Except.ok sleep_start_dt =>
        match parse_garmin_timestamp (safe_get record ["sleepEndTimestampGMT"]) with
        | Except.error e => Except.error e
        | Except.ok sleep_end_dt =>
          -- duration_seconds is computed but never used by the row below
          -- (the binding is dead code in the source too)
          let _duration_seconds : Int :=
            match sleep_start_dt, sleep_end_dt with
            | some s, some e => toEpochUsec e - toEpochUsec s
            | _, _ => 0
          match pyNumValue ((safe_get record ["deepSleepSeconds"]).getD (Json.num 0)),
                pyNumValue ((safe_get record ["lightSleepSeconds"]).getD (Json.num 0)),
                pyNumValue ((safe_get record ["remSleepSeconds"]).getD (Json.num 0)) with
          | Except.error e, _, _ => Except.error e
          | Except.ok _, Except.error e, _ => Except.error e
          | Except.ok _, Except.ok _, Except.error e => Except.error e
          | Except.ok deep_seconds, Except.ok light_seconds, Except.ok rem_seconds =>
            match pyWakeMinutes ((safe_get record ["awakeSleepSeconds"]).getD (Json.num 0)) with
            | Except.error e => Except.error e
            | Except.ok wake_minutes =>
              let total_sleep_minutes :=
                if 0 < deep_seconds + light_seconds + rem_seconds
                then pyRound60 (deep_seconds + light_seconds + rem_seconds) else 0
              Except.ok (some
                { date := format_date_csv dt
                  sleep_duration := total_sleep_minutes
                  deep_sleep := if ¬ deep_seconds = 0 then pyRound60 deep_seconds else 0
                  rem_sleep := if ¬ rem_seconds = 0 then pyRound60 rem_seconds else 0
                  light_sleep := if ¬ light_seconds = 0 then pyRound60 light_seconds else 0
                  wake_time := wake_minutes
                  sleep_score := (safe_get record ["overallSleepScore", "value"]).getD (Json.str [])
                  resting_hr_sleep := (safe_get record ["spo2SleepSummary", "averageHR"]).getD (Json.str [])
                  hrv_sleep := Json.str [] })
    else Except.ok none

/-- Comparison used by `rows.sort(key=lambda x: x[k])`. -/
def rowLe {α : Type} (key : α → String) (a b : α) : Prop := key a ≤ key b

instance {α : Type} (key : α → String) : DecidableRel (rowLe key) := fun a b =>
  inferInstanceAs (Decidable (key a ≤ key b))

/-- `rows.sort(key=lambda x: x[k])`. -/
def sortByKey {α : Type} (key : α → String) (rows : List α) : List α :=
  List.insertionSort (rowLe key) rows

/-- The seen-set loop that keeps the first row for each key (lines 235-240
and 304-309; the membership test in line 145 is the same loop fused with
accumulation). -/
def dedupFirstByAux {α : Type} (key : α → String) : List String → List α → List α
  | _, [] => []
  | seen, r :: rs =>
    if key r ∈ seen then dedupFirstByAux key seen rs
    else r :: dedupFirstByAux key (key r :: seen) rs

def dedupFirstBy {α : Type} (key : α → String) (rows : List α) : List α :=
  dedupFirstByAux key [] rows

/-! ### Table builders

The filesystem is abstracted: `none` models an absent source file (for
user-biometrics) or source directory (for sleep and max-MET); `some data`
models the decoded JSON records.  For sleep and max-MET the input is the
list of decoded record arrays of the matching files, in directory-listing
order.  (A JSON decode error makes `process_user_biometrics` return with no
output file exactly like an absent file, and makes the other two builders
skip just that file; decode errors are otherwise not modelled.)  The output
`ok none` means the builder returned without writing a CSV file;
`ok (some csv)` is the written file, a fixed header row plus the data rows;
`error e` is a record whose extraction raised an uncaught exception,
aborting the whole run with no CSV written. -/

theorem expectChar_cons_self (c : Char) (r : List Char) : expectChar c (c :: r) = some r := by
  simp [expectChar]

def signChar (sg : Bool) : Char := if sg then '+' else '-'

def offsetMinutes (sg : Bool) (oh om : Nat) : Int :=
  (if sg then 1 else -1) * ((oh * 60 + om : Nat) : Int)

def renderOffsetColon (sg : Bool) (oh om : Nat) : List Char :=
  signChar sg :: (render2 oh ++ (':' :: render2 om))

def renderOffsetNoColon (sg : Bool) (oh om : Nat) : List Char :=
  signChar sg :: (render2 oh ++ render2 om)

def renderTimeFrac (h mi s f : Nat) (tail : List Char) : List Char :=
  render2 h ++ (':' :: (render2 mi ++ (':' :: (render2 s ++ ('.' :: (render3 f ++ tail))))))

def renderDate (y mo d : Nat) (tail : List Char) : List Char :=
  render4 y ++ ('-' :: (render2 mo ++ ('-' :: (render2 d ++ tail))))

theorem daysInMonth_le (y m : Nat) : daysInMonth y m ≤ 31 := by
  unfold daysInMonth
  repeat' split
  all_goals omega

theorem parse2_render2_nil (n : Nat) (h : n ≤ 99) : parse2 (render2 n) = some (n, []) := by
  have := parse2_render2 n h []
  rwa [List.append_nil] at this

theorem parseOffsetTail_render (oh om : Nat) (sg : Bool) (hoh : oh ≤ 23) (hom : om ≤ 59) :
    parseOffsetTail (renderOffsetColon sg oh om) = some (offsetMinutes sg oh om) := by
  have hsgn : signChar sg = '+' ∨ signChar sg = '-' := by cases sg <;> simp [signChar]
  rw [renderOffsetColon, parseOffsetTail, if_pos hsgn, parse2_render2 oh (by omega)]
  simp only [Option.some_bind, expectChar_cons_self, parse2_render2_nil om (by omega)]
  rw [if_pos (by omega)]
  cases sg <;> simp [signChar, offsetMinutes]

theorem parseFracThenOffset_render (f oh om : Nat) (sg : Bool)
    (hf : f ≤ 999) (hoh : oh ≤ 23) (hom : om ≤ 59) :
    parseFracThenOffset (render3 f ++ renderOffsetColon sg oh om) =
      some (f * 1000, some (offsetMinutes sg oh om)) := by
  have hsg : (signChar sg).isDigit = false := by cases sg <;> rfl
  rw [parseFracThenOffset, renderOffsetColon]
  simp only [spanDigits_render3 f hf _ hsg]
  rw [show (signChar sg :: (render2 oh ++ (':' :: render2 om))) = renderOffsetColon sg oh om from rfl,
    parseOffsetTail_render oh om sg hoh hom]
  norm_num

theorem parseIsoTime_render (h mi s f oh om : Nat) (sg : Bool)
    (hh : h ≤ 23) (hmi : mi ≤ 59) (hs : s ≤ 59) (hf : f ≤ 999) (hoh : oh ≤ 23) (hom : om ≤ 59) :
    parseIsoTime (renderTimeFrac h mi s f (renderOffsetColon sg oh om)) =
      some ⟨h, mi, s, f * 1000, some (offsetMinutes sg oh om)⟩ := by
  rw [renderTimeFrac, parseIsoTime, parse2_render2 h (by omega)]
  simp only [Option.some_bind]
  rw [parse2_render2 mi (by omega)]
  simp only [Option.some_bind]
  rw [parse2_render2 s (by omega)]
  simp only [Option.some_bind]
  rw [parseFracThenOffset_render f oh om sg hf hoh hom]
  rfl

theorem fromisoformat_render (y mo d h mi s f oh om : Nat) (sg : Bool) (sep : Char)
    (hy1 : 1 ≤ y) (hy2 : y ≤ 9999) (hmo1 : 1 ≤ mo) (hmo2 : mo ≤ 12)
    (hd1 : 1 ≤ d) (hd2 : d ≤ daysInMonth y mo)
    (hh : h ≤ 23) (hmi : mi ≤ 59) (hs : s ≤ 59) (hf : f ≤ 999) (hoh : oh ≤ 23) (hom : om ≤ 59) :
    fromisoformat (renderDate y mo d (sep :: renderTimeFrac h mi s f (renderOffsetColon sg oh om)))
      = some ⟨y, mo, d, h, mi, s, f * 1000, some (offsetMinutes sg oh om)⟩ := by
  rw [renderDate, fromisoformat, parse4_render4 y hy2]
  simp only [Option.some_bind, expectChar_cons_self]
  rw [parse2_render2 mo (by omega)]
  simp only [Option.some_bind, expectChar_cons_self]
  rw [parse2_render2 d (by have := daysInMonth_le y mo; omega)]
  simp only [Option.some_bind]
  rw [parseIsoTime_render h mi s f oh om sg hh hmi hs hf hoh hom]
  simp only [Option.some_bind]
  have hus : f * 1000 ≤ 999999 := by omega
  rw [mkPyDateTime, if_pos (show 1 ≤ y ∧ y ≤ 9999 ∧ 1 ≤ mo ∧ mo ≤ 12 ∧ 1 ≤ d ∧ d ≤ daysInMonth y mo ∧ h ≤ 23 ∧ mi ≤ 59 ∧ s ≤ 59 ∧ f * 1000 ≤ 999999 from ⟨hy1, hy2, hmo1, hmo2, hd1, hd2, hh, hmi, hs, hus⟩)]

def renderTsColon (y mo d h mi s f : Nat) (sg : Bool) (oh om : Nat) : List Char :=
  renderDate y mo d ('T' :: renderTimeFrac h mi s f (renderOffsetColon sg oh om))

def renderTsNoColon (y mo d h mi s f : Nat) (sg : Bool) (oh om : Nat) : List Char :=
  renderDate y mo d ('T' :: renderTimeFrac h mi s f (renderOffsetNoColon sg oh om))

def tsInstant (y mo d h mi s f : Nat) (sg : Bool) (oh om : Nat) : Int :=
  civilUsec y mo d h mi s (f * 1000) - offsetMinutes sg oh om * 60000000

theorem renderTsColon_contains_dot (y mo d h mi s f : Nat) (sg : Bool) (oh om : Nat) :
    (renderTsColon y mo d h mi s f sg oh om).contains '.' = true := by
  simp [renderTsColon, renderDate, renderTimeFrac, renderOffsetColon, render4, render2, render3,
    List.contains]

theorem renderTsColon_hasTz (y mo d h mi s f : Nat) (sg : Bool) (oh om : Nat) :
    hasTimezoneIndicator (renderTsColon y mo d h mi s f sg oh om) = true := by
  cases sg <;>
  simp [hasTimezoneIndicator, pyDropTen, renderTsColon, renderDate, renderTimeFrac,
    renderOffsetColon, signChar, render4, render2, render3, List.contains]

theorem renderTsColon_not_endsZ (y mo d h mi s f : Nat) (sg : Bool) (oh om : Nat) :
    pyEndsWithZ (renderTsColon y mo d h mi s f sg oh om) = false := by
  simp [pyEndsWithZ, renderTsColon, renderDate, renderTimeFrac, renderOffsetColon,
    render4, render2, render3]

theorem renderTsColon_slice32 (y mo d h mi s f : Nat) (sg : Bool) (oh om : Nat) :
    pySliceNeg3Neg2 (renderTsColon y mo d h mi s f sg oh om) = [':'] := by
  simp [pySliceNeg3Neg2, renderTsColon, renderDate, renderTimeFrac, renderOffsetColon,
    render4, render2, render3]

theorem finishAstimezone_some (dt : PyDateTime) :
    finishAstimezone (some dt) = (astimezoneUtc dt).map some := rfl

theorem astimezoneUtc_ok (dt : PyDateTime) (hb1 : minDatetimeUsec ≤ toEpochUsec dt)
    (hb2 : toEpochUsec dt ≤ maxDatetimeUsec) :
    astimezoneUtc dt = Except.ok (fromEpochUsec (toEpochUsec dt)) := by
  simp only [astimezoneUtc]
  rw [if_pos ⟨hb1, hb2⟩]

theorem parseGarminChars_renderTsColon (y mo d h mi s f oh om : Nat) (sg : Bool)
    (hy1 : 1 ≤ y) (hy2 : y ≤ 9999) (hmo1 : 1 ≤ mo) (hmo2 : mo ≤ 12)
    (hd1 : 1 ≤ d) (hd2 : d ≤ daysInMonth y mo)
    (hh : h ≤ 23) (hmi : mi ≤ 59) (hs : s ≤ 59) (hf : f ≤ 999) (hoh : oh ≤ 23) (hom : om ≤ 59)
    (hb1 : minDatetimeUsec ≤ tsInstant y mo d h mi s f sg oh om)
    (hb2 : tsInstant y mo d h mi s f sg oh om ≤ maxDatetimeUsec) :
    parseGarminChars (renderTsColon y mo d h mi s f sg oh om) =
      Except.ok (some (fromEpochUsec (tsInstant y mo d h mi s f sg oh om))) := by
  rw [parseGarminChars, renderTsColon_contains_dot, renderTsColon_hasTz]
  simp only [Bool.and_self, if_true]
  rw [renderTsColon_not_endsZ]
  simp only [Bool.false_eq_true, if_false]
  rw [renderTsColon_slice32, if_pos rfl]
  rw [show renderTsColon y mo d h mi s f sg oh om =
        renderDate y mo d ('T' :: renderTimeFrac h mi s f (renderOffsetColon sg oh om)) from rfl,
    fromisoformat_render y mo d h mi s f oh om sg 'T' hy1 hy2 hmo1 hmo2 hd1 hd2 hh hmi hs hf hoh hom,
    finishAstimezone_some,
    astimezoneUtc_ok ⟨y, mo, d, h, mi, s, f * 1000, some (offsetMinutes sg oh om)⟩
      (by exact hb1) (by exact hb2)]
  rfl

theorem digitChar_ne_colon (n : Nat) : ¬ digitChar n = ':' := by
  intro h
  have := digitChar_isDigit n
  rw [h] at this
  exact absurd this (by decide)

theorem renderTsNoColon_contains_dot (y mo d h mi s f : Nat) (sg : Bool) (oh om : Nat) :
    (renderTsNoColon y mo d h mi s f sg oh om).contains '.' = true := by
  simp [renderTsNoColon, renderDate, renderTimeFrac, renderOffsetNoColon, render4, render2, render3,
    List.contains]

theorem renderTsNoColon_hasTz (y mo d h mi s f : Nat) (sg : Bool) (oh om : Nat) :
    hasTimezoneIndicator (renderTsNoColon y mo d h mi s f sg oh om) = true := by
  cases sg <;>
  simp [hasTimezoneIndicator, pyDropTen, renderTsNoColon, renderDate, renderTimeFrac,
    renderOffsetNoColon, signChar, render4, render2, render3, List.contains]

theorem renderTsNoColon_not_endsZ (y mo d h mi s f : Nat) (sg : Bool) (oh om : Nat) :
    pyEndsWithZ (renderTsNoColon y mo d h mi s f sg oh om) = false := by
  simp [pyEndsWithZ, renderTsNoColon, renderDate, renderTimeFrac, renderOffsetNoColon,
    render4, render2, render3]

theorem renderTsNoColon_slice32 (y mo d h mi s f : Nat) (sg : Bool) (oh om : Nat) :
    pySliceNeg3Neg2 (renderTsNoColon y mo d h mi s f sg oh om) = [digitChar (oh % 10)] := by
  simp [pySliceNeg3Neg2, renderTsNoColon, renderDate, renderTimeFrac, renderOffsetNoColon,
    render4, render2, render3]

theorem renderTsNoColon_len (y mo d h mi s f : Nat) (sg : Bool) (oh om : Nat) :
    (renderTsNoColon y mo d h mi s f sg oh om).length = 28 := by
  simp [renderTsNoColon, renderDate, renderTimeFrac, renderOffsetNoColon, render4, render2, render3]

theorem renderTsNoColon_char5 (y mo d h mi s f : Nat) (sg : Bool) (oh om : Nat) :
    pyCharFromEnd (renderTsNoColon y mo d h mi s f sg oh om) 5 = some (signChar sg) := by
  simp [pyCharFromEnd, renderTsNoColon, renderDate, renderTimeFrac, renderOffsetNoColon,
    render4, render2, render3]

theorem renderTsNoColon_char3 (y mo d h mi s f : Nat) (sg : Bool) (oh om : Nat) :
    pyCharFromEnd (renderTsNoColon y mo d h mi s f sg oh om) 3 = some (digitChar (oh % 10)) := by
  simp [pyCharFromEnd, renderTsNoColon, renderDate, renderTimeFrac, renderOffsetNoColon,
    render4, render2, render3]

theorem renderTsNoColon_colonized (y mo d h mi s f : Nat) (sg : Bool) (oh om : Nat) :
    pySliceToEnd (renderTsNoColon y mo d h mi s f sg oh om) 2 ++
        ':' :: pySliceFromEnd (renderTsNoColon y mo d h mi s f sg oh om) 2 =
      renderTsColon y mo d h mi s f sg oh om := by
  simp [pySliceToEnd, pySliceFromEnd, renderTsNoColon, renderTsColon, renderDate, renderTimeFrac,
    renderOffsetNoColon, renderOffsetColon, render4, render2, render3]

theorem parseGarminChars_renderTsNoColon (y mo d h mi s f oh om : Nat) (sg : Bool)
    (hy1 : 1 ≤ y) (hy2 : y ≤ 9999) (hmo1 : 1 ≤ mo) (hmo2 : mo ≤ 12)
    (hd1 : 1 ≤ d) (hd2 : d ≤ daysInMonth y mo)
    (hh : h ≤ 23) (hmi : mi ≤ 59) (hs : s ≤ 59) (hf : f ≤ 999) (hoh : oh ≤ 23) (hom : om ≤ 59)
    (hb1 : minDatetimeUsec ≤ tsInstant y mo d h mi s f sg oh om)
    (hb2 : tsInstant y mo d h mi s f sg oh om ≤ maxDatetimeUsec) :
    parseGarminChars (renderTsNoColon y mo d h mi s f sg oh om) =
      Except.ok (some (fromEpochUsec (tsInstant y mo d h mi s f sg oh om))) := by
  rw [parseGarminChars, renderTsNoColon_contains_dot, renderTsNoColon_hasTz]
  simp only [Bool.and_self, if_true]
  rw [renderTsNoColon_not_endsZ]
  simp only [Bool.false_eq_true, if_false]
  rw [renderTsNoColon_slice32,
    if_neg (by simp [digitChar_ne_colon]),
    if_pos (by
      refine ⟨by rw [renderTsNoColon_len]; omega, ?_, ?_⟩
      · rw [renderTsNoColon_char5]
        cases sg <;> simp [signChar]
      · rw [renderTsNoColon_char3]
        simp [digitChar_ne_colon]),
    renderTsNoColon_colonized,
    show renderTsColon y mo d h mi s f sg oh om =
        renderDate y mo d ('T' :: renderTimeFrac h mi s f (renderOffsetColon sg oh om)) from rfl,
    fromisoformat_render y mo d h mi s f oh om sg 'T' hy1 hy2 hmo1 hmo2 hd1 hd2 hh hmi hs hf hoh hom,
    finishAstimezone_some,
    astimezoneUtc_ok ⟨y, mo, d, h, mi, s, f * 1000, some (offsetMinutes sg oh om)⟩
      (by exact hb1) (by exact hb2)]
  rfl

/-! ### Correctness of the sort plus dedup pipeline -/

instance {α : Type} (key : α → String) : IsTotal α (rowLe key) :=
  ⟨fun a b => le_total (key a) (key b)⟩

instance {α : Type} (key : α → String) : IsTrans α (rowLe key) :=
  ⟨fun _ _ _ hab hbc => le_trans hab hbc⟩

theorem sortByKey_sorted {α : Type} (key : α → String) (l : List α) :
    (sortByKey key l).Sorted (rowLe key) :=
  List.sorted_insertionSort (rowLe key) l

theorem sortByKey_perm {α : Type} (key : α → String) (l : List α) :
    (sortByKey key l).Perm l :=
  List.perm_insertionSort (rowLe key) l

theorem filter_key_orderedInsert {α : Type} (key : α → String) (k : String) (a : α)
    (l : List α) :
    (l.orderedInsert (rowLe key) a).filter (fun r => key r == k) =
      if key a == k then a :: l.filter (fun r => key r == k)
      else l.filter (fun r => key r == k) := by
  induction l with
  | nil => cases hak : key a == k <;> simp [List.orderedInsert, List.filter, hak]
  | cons b t ih =>
    rw [List.orderedInsert]
    by_cases hab : rowLe key a b
    · rw [if_pos hab]
      cases hak : key a == k <;> simp [List.filter_cons, hak]
    · rw [if_neg hab]
      have hba : key b < key a := lt_of_not_le hab
      by_cases hak : (key a == k) = true
      · have hbk : (key b == k) = false := by
          have : ¬ key b = k := fun he => absurd (he ▸ (eq_of_beq hak)) (ne_of_lt hba).symm
          simpa using this
        simp only [List.filter_cons, hbk, ih, hak, if_true, Bool.false_eq_true, if_false]
      · cases h2 : key b == k <;>
          simp only [List.filter_cons, h2, ih, hak, if_true, Bool.false_eq_true, if_false]
  
theorem filter_key_sortByKey {α : Type} (key : α → String) (k : String) (l : List α) :
    (sortByKey key l).filter (fun r => key r == k) = l.filter (fun r => key r == k) := by
  induction l with
  | nil => rfl
  | cons a t ih =>
    rw [sortByKey, List.insertionSort, filter_key_orderedInsert]
    by_cases hak : (key a == k) = true
    · rw [if_pos hak]
      rw [sortByKey] at ih
      simp only [List.filter_cons, hak, if_true, ih]
    · rw [if_neg hak]
      rw [sortByKey] at ih
      simp only [List.filter_cons, hak, Bool.false_eq_true, if_false, ih]

theorem find?_sortByKey {α : Type} (key : α → String) (k : String) (l : List α) :
    (sortByKey key l).find? (fun r => key r == k) = l.find? (fun r => key r == k) := by
  rw [← List.filter_head? , ← List.filter_head?, filter_key_sortByKey]

theorem filter_dedupFirstByAux {α : Type} (key : α → String) (k : String) :
    ∀ (rows : List α) (seen : List String),
      (dedupFirstByAux key seen rows).filter (fun r => key r == k) =
        if k ∈ seen then [] else (rows.find? (fun r => key r == k)).toList := by
  intro rows
  induction rows with
  | nil => intro seen; by_cases hk : k ∈ seen <;> simp [dedupFirstByAux, hk]
  | cons r rs ih =>
    intro seen
    rw [dedupFirstByAux]
    by_cases hm : key r ∈ seen
    · rw [if_pos hm, ih seen]
      by_cases hk : k ∈ seen
      · simp [hk]
      · have hrk : (key r == k) = false := by
          have : ¬ key r = k := fun he => hk (he ▸ hm)
          simpa using this
        simp [hk, List.find?_cons, hrk]
    · rw [if_neg hm]
      by_cases hk : k ∈ seen
      · have hrk : (key r == k) = false := by
          have : ¬ key r = k := fun he => hm (he ▸ hk)
          simpa using this
        simp only [List.filter_cons, hrk, Bool.false_eq_true, if_false, ih, hk, if_true,
          List.mem_cons, or_true, List.find?_cons]
      · by_cases hrk : (key r == k) = true
        · have hkr : k ∈ key r :: seen := by
            have : key r = k := eq_of_beq hrk
            simp [this]
          simp only [List.filter_cons, hrk, if_true, ih, hkr, List.find?_cons, hk,
            Bool.false_eq_true, if_false, if_true, Option.toList_some]
        · have hrk' : (key r == k) = false := Bool.not_eq_true _ ▸ (by simpa using hrk)
          have hkr : ¬ k ∈ key r :: seen := by
            simp only [List.mem_cons]
            push_neg
            exact ⟨fun he => by simp [he] at hrk, hk⟩
          simp only [List.filter_cons, hrk', Bool.false_eq_true, if_false, ih, hkr, if_false,
            List.find?_cons, hk]

theorem filter_dedupFirstBy {α : Type} (key : α → String) (k : String) (rows : List α) :
    (dedupFirstBy key rows).filter (fun r => key r == k) =
      (rows.find? (fun r => key r == k)).toList := by
  rw [dedupFirstBy, filter_dedupFirstByAux]
  simp

theorem dedupFirstByAux_sublist {α : Type} (key : α → String) :
    ∀ (rows : List α) (seen : List String), List.Sublist (dedupFirstByAux key seen rows) rows := by
  intro rows
  induction rows with
  | nil => intro seen; simp [dedupFirstByAux]
  | cons r rs ih =>
    intro seen
    rw [dedupFirstByAux]
    by_cases hm : key r ∈ seen
    · rw [if_pos hm]
      exact (ih seen).cons r
    · rw [if_neg hm]
      exact (ih (key r :: seen)).cons₂ r

theorem countP_key_dedup_sorted {α : Type} (key : α → String) (rows : List α) (k : String) :
    (dedupFirstBy key (sortByKey key rows)).countP (fun r => key r == k) =
      ((sortByKey key rows).find? (fun r => key r == k)).toList.length := by
  rw [List.countP_eq_length_filter, filter_dedupFirstBy]

theorem countP_key_dedup_then_sort {α : Type} (key : α → String) (rows : List α) (k : String) :
    (sortByKey key (dedupFirstBy key rows)).countP (fun r => key r == k) =
      (rows.find? (fun r => key r == k)).toList.length := by
  rw [List.countP_eq_length_filter, filter_key_sortByKey, filter_dedupFirstBy]

theorem keys_pairwise_lt_of_sorted_nodupkeys {α : Type} (key : α → String) (l : List α)
    (hs : l.Sorted (rowLe key)) (hn : (l.map key).Nodup) :
    (l.map key).Pairwise (fun a b => a < b) := by
  have h1 : (l.map key).Pairwise (fun a b => a ≤ b) := List.pairwise_map.mpr hs
  have h2 : (l.map key).Pairwise (fun a b => ¬ a = b) := hn
  exact (h1.and h2).imp fun h => lt_of_le_of_ne h.1 h.2

theorem nodup_keys_of_single_counts {α : Type} (key : α → String) (l : List α)
    (h : ∀ k : String, l.countP (fun r => key r == k) ≤ 1) : (l.map key).Nodup := by
  rw [List.nodup_iff_count_le_one]
  intro k
  calc (l.map key).count k = (l.map key).countP (fun x => x == k) := rfl
    _ = l.countP (fun r => key r == k) := by rw [List.countP_map]; rfl
    _ ≤ 1 := h k

theorem dedup_sorted_keys_lt {α : Type} (key : α → String) (rows : List α) :
    ((dedupFirstBy key (sortByKey key rows)).map key).Pairwise (fun a b => a < b) := by
  refine keys_pairwise_lt_of_sorted_nodupkeys key _ ?_ ?_
  · exact (sortByKey_sorted key rows).sublist (dedupFirstByAux_sublist key _ [])
  · refine nodup_keys_of_single_counts key _ fun k => ?_
    rw [countP_key_dedup_sorted]
    cases (sortByKey key rows).find? (fun r => key r == k) <;> simp

theorem dedup_then_sort_keys_lt {α : Type} (key : α → String) (rows : List α) :
    ((sortByKey key (dedupFirstBy key rows)).map key).Pairwise (fun a b => a < b) := by
  refine keys_pairwise_lt_of_sorted_nodupkeys key _ (sortByKey_sorted key _) ?_
  refine nodup_keys_of_single_counts key _ fun k => ?_
  rw [countP_key_dedup_then_sort]
  cases rows.find? (fun r => key r == k) <;> simp

theorem head?_toList {α : Type} (o : Option α) : o.toList.head? = o := by
  cases o <;> rfl

/-! ### The claims -/

/-- C6: for every table (both the sort-then-dedup pipeline of the sleep and
max-MET builders and the dedup-while-accumulating-then-sort pipeline of the
user-biometrics builder), any key occurring among the extracted rows appears
on exactly one output row, that row is the first row carrying the key in the
globally ascending-sorted row list, and the output keys are strictly
ascending. -/
theorem claim6_dedup_sort {α : Type} (key : α → String) (rows : List α) (k : String)
    (hk : k ∈ rows.map key) :
    ((dedupFirstBy key (sortByKey key rows)).countP (fun r => key r == k) = 1 ∧
     (dedupFirstBy key (sortByKey key rows)).find? (fun r => key r == k) =
       (sortByKey key rows).find? (fun r => key r == k) ∧
     ((dedupFirstBy key (sortByKey key rows)).map key).Pairwise (fun a b => a < b)) ∧
    ((sortByKey key (dedupFirstBy key rows)).countP (fun r => key r == k) = 1 ∧
     (sortByKey key (dedupFirstBy key rows)).find? (fun r => key r == k) =
       (sortByKey key rows).find? (fun r => key r == k) ∧
     ((sortByKey key (dedupFirstBy key rows)).map key).Pairwise (fun a b => a < b)) := by
  obtain ⟨r, hr, hkey⟩ := List.mem_map.mp hk
  have hfind_rows : (rows.find? (fun r => key r == k)).isSome :=
    List.find?_isSome.mpr ⟨r, hr, by simp [hkey]⟩
  obtain ⟨x, hx⟩ := Option.isSome_iff_exists.mp hfind_rows
  have hfind_sorted : (sortByKey key rows).find? (fun r => key r == k) = some x := by
    rw [find?_sortByKey, hx]
  refine ⟨⟨?_, ?_, dedup_sorted_keys_lt key rows⟩, ⟨?_, ?_, dedup_then_sort_keys_lt key rows⟩⟩
  · rw [countP_key_dedup_sorted, hfind_sorted]
    rfl
  · rw [← List.filter_head?, filter_dedupFirstBy, head?_toList]
  · rw [countP_key_dedup_then_sort, hx]
    rfl
  · rw [← List.filter_head?, filter_key_sortByKey, filter_dedupFirstBy, head?_toList,
      find?_sortByKey]

def w6rows : List (String × Nat) := [("2021-01-02", 1), ("2021-01-01", 2), ("2021-01-01", 3)]

/-- Witness for C6 at a concrete duplicated key. -/
theorem claim6_dedup_sort_witness :
    (dedupFirstBy Prod.fst (sortByKey Prod.fst w6rows)).countP (fun r => r.1 == "2021-01-01") = 1 ∧
    (sortByKey Prod.fst (dedupFirstBy Prod.fst w6rows)).countP (fun r => r.1 == "2021-01-01") = 1 :=
  ⟨(claim6_dedup_sort Prod.fst w6rows "2021-01-01" (by decide)).1.1,
   (claim6_dedup_sort Prod.fst w6rows "2021-01-01" (by decide)).2.1⟩

/-- C7: the claim states the documented intent (no input string may cause an
unhandled abort) and the code violates it: only `ValueError` is caught, so
the `OverflowError` raised by `astimezone` when the UTC-converted instant
falls outside years 1-9999 escapes and aborts the run.  At
`0001-01-01T00:00:00.000+00:01` the string parses and the conversion
overflows; an invalid calendar date, by contrast, raises the caught
`ValueError` and is correctly mapped to null. -/
theorem claim7_abort_on_overflow :
    parse_garmin_timestamp (some (Json.str "0001-01-01T00:00:00.000+00:01".data)) =
      Except.error PyError.overflowError ∧
    parse_garmin_timestamp (some (Json.str "2021-02-30T10:00:00.000+00:00".data)) =
      Except.ok none :=
  ⟨rfl, rfl⟩

/-- C8: null propagation of the normalizer and the range filter, and the
inclusive-bounds comparison with naive datetimes coerced to UTC. -/
theorem claim8_null_and_range :
    parse_garmin_timestamp none = Except.ok none ∧
    parse_garmin_timestamp (some (Json.str [])) = Except.ok none ∧
    is_in_date_range none = false ∧
    (∀ dt : PyDateTime, is_in_date_range (some { dt with tz := none }) =
      is_in_date_range (some (replaceTzUtc dt))) ∧
    (∀ dt : PyDateTime, is_in_date_range (some dt) = true ↔
      (toEpochUsec START_DATE_FILTER ≤ toEpochUsec (if dt.tz = none then replaceTzUtc dt else dt) ∧
       toEpochUsec (if dt.tz = none then replaceTzUtc dt else dt) ≤ toEpochUsec END_DATE_FILTER)) ∧
    is_in_date_range (some START_DATE_FILTER) = true ∧
    is_in_date_range (some END_DATE_FILTER) = true := by
  refine ⟨rfl, rfl, rfl, fun dt => rfl, fun dt => ?_, by decide, by decide⟩
  rw [is_in_date_range]
  simp [pyDateTimeLe, Bool.and_eq_true, decide_eq_true_eq]

/-- The sleep record of C1: the stated seconds, with a calendar date inside
the window. -/
def c1SleepRecord : Json :=
  Json.obj [("calendarDate", Json.str "2021-03-10".data),
            ("deepSleepSeconds", Json.num 7200),
            ("lightSleepSeconds", Json.num 10800),
            ("remSleepSeconds", Json.num 1800),
            ("awakeSleepSeconds", Json.num 1260)]

/-- A sleep record whose deep, light and rem seconds are all zero. -/
def c1ZeroSleepRecord : Json :=
  Json.obj [("calendarDate", Json.str "2021-03-10".data),
            ("deepSleepSeconds", Json.num 0),
            ("lightSleepSeconds", Json.num 0),
            ("remSleepSeconds", Json.num 0),
            ("awakeSleepSeconds", Json.num 1260)]

/-- Projection of one extraction outcome: the sleep_duration of an emitted
row, if any. -/
def sleepDurationOf (x : Except PyError (Option SleepRow)) : Option Int :=
  match x with
  | Except.ok (some r) => some r.sleep_duration
  | _ => none

/-- Projection of one extraction outcome: the five derived minute counts of
an emitted row. -/
def sleepStatsOf (x : Except PyError (Option SleepRow)) : Option (Int × Int × Int × Int × Int) :=
  match x with
  | Except.ok (some r) => some (r.sleep_duration, r.deep_sleep, r.rem_sleep, r.light_sleep, r.wake_time)
  | _ => none

/-- Projection of one extraction outcome: the date cell of an emitted row. -/
def sleepDateOf (x : Except PyError (Option SleepRow)) : Option (List Char) :=
  match x with
  | Except.ok (some r) => some r.date
  | _ => none

/-- C1 counterexample: (7200 + 10800 + 1800) seconds round to 330 minutes,
not the claimed 300. -/
theorem claim1_counterexample :
    sleepDurationOf (sleepRow c1SleepRecord) = some 330 ∧
    ¬ sleepDurationOf (sleepRow c1SleepRecord) = some 300 := by
  constructor
  · rfl
  · decide

/-- C1 as amended: the row has sleep_duration 330 (the claimed 120, 30, 180
and 21 for the components are as stated), the rounding is round-half-to-even
on the exact quotient, and an all-zero deep+light+rem total yields 0. -/
theorem claim1_amended :
    sleepStatsOf (sleepRow c1SleepRecord) = some (330, 120, 30, 180, 21) ∧
    sleepDateOf (sleepRow c1SleepRecord) = some "2021-03-10".data ∧
    (∀ q : Int, pyRound60 (60 * q + 30) = if q % 2 = 0 then q else q + 1) ∧
    (∀ n : Int, n % 60 < 30 → pyRound60 n = n / 60) ∧
    (∀ n : Int, 30 < n % 60 → pyRound60 n = n / 60 + 1) ∧
    sleepDurationOf (sleepRow c1ZeroSleepRecord) = some 0 := by
  have hfd : ∀ n : Int, n.fdiv 60 = n / 60 := fun n => Int.fdiv_eq_ediv n (by omega)
  have hfm : ∀ n : Int, n.fmod 60 = n % 60 := fun n => Int.fmod_eq_emod n (by omega)
  have hfm2 : ∀ n : Int, n.fmod 2 = n % 2 := fun n => Int.fmod_eq_emod n (by omega)
  refine ⟨rfl, rfl, fun q => ?_, fun n h => ?_, fun n h => ?_, rfl⟩
  · rw [pyRound60, hfd, hfm, hfm2]
    have h1 : (60 * q + 30) / 60 = q := by omega
    have h2 : (60 * q + 30) % 60 = 30 := by omega
    rw [h1, h2, if_neg (by omega), if_neg (by omega)]
  · rw [pyRound60, hfd, hfm, if_pos h]
  · rw [pyRound60, hfd, hfm, if_neg (by omega), if_pos h]

/-- Witness for the amended C1 rounding clauses at concrete arguments:
150 s rounds down to the even 2, 125 s rounds down, 100 s rounds up. -/
theorem claim1_amended_witness :
    pyRound60 (60 * 2 + 30) = 2 ∧ pyRound60 125 = 2 ∧ pyRound60 100 = 2 := by
  refine ⟨?_, ?_, ?_⟩
  · rw [claim1_amended.2.2.1 2]
    norm_num
  · rw [claim1_amended.2.2.2.1 125 (by decide)]
    decide
  · rw [claim1_amended.2.2.2.2.1 100 (by decide)]
    decide

/-- C4 counterexample: the canonical instant of
`"2020-02-15T13:19:26.265Z"` keeps its 265000 microseconds; the fraction is
not truncated in the canonical form. -/
theorem claim4_counterexample :
    parse_garmin_timestamp (some (Json.str "2020-02-15T13:19:26.265Z".data)) =
      Except.ok (some ⟨2020, 2, 15, 13, 19, 26, 265000, some 0⟩) ∧
    ¬ parse_garmin_timestamp (some (Json.str "2020-02-15T13:19:26.265Z".data)) =
      Except.ok (some ⟨2020, 2, 15, 13, 19, 26, 0, some 0⟩) := by
  constructor
  · rfl
  · decide

/-- C4 as amended: the canonical instant is 2020-02-15 13:19:26.265 UTC with
the fraction preserved (it is dropped only by the CSV formatter); that
instant is in-range; `"2025-07-01"` parses to 2025-07-01 00:00:00 UTC which
is out of range, the window end being 2025-06-30 00:00:00 UTC. -/
theorem claim4_amended :
    parse_garmin_timestamp (some (Json.str "2020-02-15T13:19:26.265Z".data)) =
      Except.ok (some ⟨2020, 2, 15, 13, 19, 26, 265000, some 0⟩) ∧
    format_datetime_csv ⟨2020, 2, 15, 13, 19, 26, 265000, some 0⟩ = "2020-02-15T13:19:26".data ∧
    is_in_date_range (some ⟨2020, 2, 15, 13, 19, 26, 265000, some 0⟩) = true ∧
    parse_garmin_timestamp (some (Json.str "2025-07-01".data)) =
      Except.ok (some ⟨2025, 7, 1, 0, 0, 0, 0, some 0⟩) ∧
    is_in_date_range (some ⟨2025, 7, 1, 0, 0, 0, 0, some 0⟩) = false ∧
    END_DATE_FILTER = ⟨2025, 6, 30, 0, 0, 0, 0, some 0⟩ := by
  exact ⟨rfl, rfl, by decide, rfl, by decide, rfl⟩

/-- C9: every admitted user-biometrics row carries the top-level
restingHeartRate when present and blank otherwise, while the other six data
columns are always blank. -/
theorem claim9_bio_fields (record : Json) (row : BioRow)
    (h : bioRow record = Except.ok (some row)) :
    (∀ v : Json, safe_get record ["restingHeartRate"] = some v → row.resting_hr = v) ∧
    (safe_get record ["restingHeartRate"] = none → row.resting_hr = Json.str []) ∧
    row.hrv = Json.str [] ∧ row.stress_level = Json.str [] ∧ row.body_battery = Json.str [] ∧
    row.spo2 = Json.str [] ∧ row.respiration_rate = Json.str [] := by
  rw [bioRow] at h
  cases hp : parse_garmin_timestamp (safe_get record ["metaData", "calendarDate"]) with
  | error e => rw [hp] at h; exact absurd h (by simp)
  | ok dt? =>
    cases dt? with
    | none => rw [hp] at h; exact absurd h (by simp)
    | some dt =>
      rw [hp] at h
      dsimp only [] at h
      by_cases hr : is_in_date_range (some dt) = true
      · rw [if_pos hr] at h
        have hrow := Option.some.inj (Except.ok.inj h)
        subst hrow
        refine ⟨fun v hv => ?_, fun hv => ?_, rfl, rfl, rfl, rfl, rfl⟩
        · simp [hv]
        · simp [hv]
      · rw [if_neg hr] at h
        exact absurd h (by simp)

def c9BioRecord : Json :=
  Json.obj [("metaData", Json.obj [("calendarDate", Json.str "2021-03-10T00:00:00".data)]),
            ("restingHeartRate", Json.num 55)]

def c9BioRow : BioRow :=
  { datetime := "2021-03-10T00:00:00".data
    resting_hr := Json.num 55
    hrv := Json.str []
    stress_level := Json.str []
    body_battery := Json.str []
    spo2 := Json.str []
    respiration_rate := Json.str [] }

/-- Witness for C9 at a concrete admitted record carrying a
restingHeartRate of 55. -/
theorem claim9_bio_fields_witness :
    c9BioRow.resting_hr = Json.num 55 ∧ c9BioRow.hrv = Json.str [] :=
  ⟨(claim9_bio_fields c9BioRecord c9BioRow rfl).1 (Json.num 55) rfl,
   (claim9_bio_fields c9BioRecord c9BioRow rfl).2.2.1⟩

/-- Bounds that make the rendered parts a valid timestamp. -/
def ValidTsParts (y mo d h mi s f oh om : Nat) : Prop :=
  1 ≤ y ∧ y ≤ 9999 ∧ 1 ≤ mo ∧ mo ≤ 12 ∧ 1 ≤ d ∧ d ≤ daysInMonth y mo ∧
  h ≤ 23 ∧ mi ≤ 59 ∧ s ≤ 59 ∧ f ≤ 999 ∧ oh ≤ 23 ∧ om ≤ 59

instance (y mo d h mi s f oh om : Nat) : Decidable (ValidTsParts y mo d h mi s f oh om) := by
  unfold ValidTsParts
  infer_instance

/-- The UTC-converted instant stays inside the representable datetime range
(years 1-9999); outside it `astimezone` raises an uncaught OverflowError. -/
def InstantRepresentable (y mo d h mi s f : Nat) (sg : Bool) (oh om : Nat) : Prop :=
  minDatetimeUsec ≤ tsInstant y mo d h mi s f sg oh om ∧
  tsInstant y mo d h mi s f sg oh om ≤ maxDatetimeUsec

instance (y mo d h mi s f : Nat) (sg : Bool) (oh om : Nat) :
    Decidable (InstantRepresentable y mo d h mi s f sg oh om) := by
  unfold InstantRepresentable
  infer_instance

theorem renderTsColon_not_empty (y mo d h mi s f : Nat) (sg : Bool) (oh om : Nat) :
    (renderTsColon y mo d h mi s f sg oh om).isEmpty = false := by
  simp [renderTsColon, renderDate, render4, List.isEmpty]

theorem renderTsNoColon_not_empty (y mo d h mi s f : Nat) (sg : Bool) (oh om : Nat) :
    (renderTsNoColon y mo d h mi s f sg oh om).isEmpty = false := by
  simp [renderTsNoColon, renderDate, render4, List.isEmpty]

theorem parse_garmin_renderTsColon (y mo d h mi s f oh om : Nat) (sg : Bool)
    (hv : ValidTsParts y mo d h mi s f oh om)
    (hb : InstantRepresentable y mo d h mi s f sg oh om) :
    parse_garmin_timestamp (some (Json.str (renderTsColon y mo d h mi s f sg oh om))) =
      Except.ok (some (fromEpochUsec (tsInstant y mo d h mi s f sg oh om))) := by
  obtain ⟨h1, h2, h3, h4, h5, h6, h7, h8, h9, h10, h11, h12⟩ := hv
  obtain ⟨hb1, hb2⟩ := hb
  rw [parse_garmin_timestamp,
    if_neg (by simp [jsonTruthy, renderTsColon_not_empty])]
  exact parseGarminChars_renderTsColon y mo d h mi s f oh om sg
    h1 h2 h3 h4 h5 h6 h7 h8 h9 h10 h11 h12 hb1 hb2

theorem parse_garmin_renderTsNoColon (y mo d h mi s f oh om : Nat) (sg : Bool)
    (hv : ValidTsParts y mo d h mi s f oh om)
    (hb : InstantRepresentable y mo d h mi s f sg oh om) :
    parse_garmin_timestamp (some (Json.str (renderTsNoColon y mo d h mi s f sg oh om))) =
      Except.ok (some (fromEpochUsec (tsInstant y mo d h mi s f sg oh om))) := by
  obtain ⟨h1, h2, h3, h4, h5, h6, h7, h8, h9, h10, h11, h12⟩ := hv
  obtain ⟨hb1, hb2⟩ := hb
  rw [parse_garmin_timestamp,
    if_neg (by simp [jsonTruthy, renderTsNoColon_not_empty])]
  exact parseGarminChars_renderTsNoColon y mo d h mi s f oh om sg
    h1 h2 h3 h4 h5 h6 h7 h8 h9 h10 h11 h12 hb1 hb2

/-- C3 counterexample: the example pair given by the claim carries no
fractional-seconds marker, so neither string matches any branch and both
return null, not a non-null Canonical Instant. -/
theorem claim3_counterexample :
    parse_garmin_timestamp (some (Json.str "2021-05-01T12:00:00+00:00".data)) = Except.ok none ∧
    parse_garmin_timestamp (some (Json.str "2021-05-01T11:00:00-01:00".data)) = Except.ok none :=
  ⟨rfl, rfl⟩

/-- C3 as amended: restricted to offset timestamps that also carry a
fractional-seconds marker and whose UTC-converted instant lies inside the
representable datetime range (outside it `astimezone` raises an uncaught
OverflowError and the run aborts), two encodings of the same physical
instant normalize to the same non-null Canonical Instant, re-expressed in
UTC. -/
theorem claim3_amended (y1 mo1 d1 h1 mi1 s1 f1 oh1 om1 : Nat) (sg1 : Bool)
    (y2 mo2 d2 h2 mi2 s2 f2 oh2 om2 : Nat) (sg2 : Bool)
    (hv1 : ValidTsParts y1 mo1 d1 h1 mi1 s1 f1 oh1 om1)
    (hv2 : ValidTsParts y2 mo2 d2 h2 mi2 s2 f2 oh2 om2)
    (hb1 : InstantRepresentable y1 mo1 d1 h1 mi1 s1 f1 sg1 oh1 om1)
    (hinst : tsInstant y1 mo1 d1 h1 mi1 s1 f1 sg1 oh1 om1 =
      tsInstant y2 mo2 d2 h2 mi2 s2 f2 sg2 oh2 om2) :
    parse_garmin_timestamp (some (Json.str (renderTsColon y1 mo1 d1 h1 mi1 s1 f1 sg1 oh1 om1))) =
      parse_garmin_timestamp (some (Json.str (renderTsColon y2 mo2 d2 h2 mi2 s2 f2 sg2 oh2 om2))) ∧
    (∃ dt : PyDateTime,
      parse_garmin_timestamp (some (Json.str (renderTsColon y1 mo1 d1 h1 mi1 s1 f1 sg1 oh1 om1))) =
        Except.ok (some dt) ∧
      dt.tz = some 0) := by
  have hb2 : InstantRepresentable y2 mo2 d2 h2 mi2 s2 f2 sg2 oh2 om2 := by
    unfold InstantRepresentable
    rw [← hinst]
    exact hb1
  rw [parse_garmin_renderTsColon y1 mo1 d1 h1 mi1 s1 f1 oh1 om1 sg1 hv1 hb1,
    parse_garmin_renderTsColon y2 mo2 d2 h2 mi2 s2 f2 oh2 om2 sg2 hv2 hb2, hinst]
  exact ⟨rfl, fromEpochUsec (tsInstant y2 mo2 d2 h2 mi2 s2 f2 sg2 oh2 om2), rfl, rfl⟩

/-- Witness for the amended C3: `2021-05-01T12:00:00.000+00:00` and
`2021-05-01T11:00:00.000-01:00` denote the same instant and normalize
identically. -/
theorem claim3_amended_witness :
    parse_garmin_timestamp (some (Json.str (renderTsColon 2021 5 1 12 0 0 0 true 0 0))) =
      parse_garmin_timestamp (some (Json.str (renderTsColon 2021 5 1 11 0 0 0 false 1 0))) ∧
    renderTsColon 2021 5 1 12 0 0 0 true 0 0 = "2021-05-01T12:00:00.000+00:00".data ∧
    renderTsColon 2021 5 1 11 0 0 0 false 1 0 = "2021-05-01T11:00:00.000-01:00".data :=
  ⟨(claim3_amended 2021 5 1 12 0 0 0 0 0 true 2021 5 1 11 0 0 0 1 0 false
      (by decide) (by decide) (by decide) (by decide)).1, rfl, rfl⟩

/-- C5 counterexample: the timezone-indicator classification does not
inspect only positions at or beyond 10: two strings agreeing from position
10 on are classified differently, because the `+` test looks at the whole
string. -/
theorem claim5_counterexample :
    List.drop 10 "2021-03-10".data = List.drop 10 "2+21-03-10".data ∧
    hasTimezoneIndicator "2021-03-10".data = false ∧
    hasTimezoneIndicator "2+21-03-10".data = true :=
  ⟨rfl, rfl, rfl⟩

/-- C5 as amended: offsets with and without a colon are both accepted and
yield the same instant for equivalent encodings whose UTC-converted instant
is representable (outside years 1-9999 the run aborts with an uncaught
OverflowError); only the `-` detection is restricted to positions at or
beyond 10 (`Z` and `+` are detected anywhere), so a string whose only
candidate indicator characters are dashes below position 10 is never
classified as carrying a timezone indicator. -/
theorem claim5_amended :
    (∀ (y mo d h mi s f oh om : Nat) (sg : Bool), ValidTsParts y mo d h mi s f oh om →
      InstantRepresentable y mo d h mi s f sg oh om →
      parse_garmin_timestamp (some (Json.str (renderTsNoColon y mo d h mi s f sg oh om))) =
        parse_garmin_timestamp (some (Json.str (renderTsColon y mo d h mi s f sg oh om))) ∧
      ∃ dt : PyDateTime,
        parse_garmin_timestamp (some (Json.str (renderTsNoColon y mo d h mi s f sg oh om))) =
          Except.ok (some dt)) ∧
    (∀ s : List Char, s.contains 'Z' = false → s.contains '+' = false →
      (s.drop 10).contains '-' = false → hasTimezoneIndicator s = false) := by
  constructor
  · intro y mo d h mi s f oh om sg hv hb
    rw [parse_garmin_renderTsNoColon y mo d h mi s f oh om sg hv hb,
      parse_garmin_renderTsColon y mo d h mi s f oh om sg hv hb]
    exact ⟨rfl, fromEpochUsec (tsInstant y mo d h mi s f sg oh om), rfl⟩
  · intro s h1 h2 h3
    rw [hasTimezoneIndicator, pyDropTen, h1, h2, h3]
    rfl

/-- Witness for the amended C5: the example pair of the spec,
`2021-03-10T10:00:00.000-0500` and `2021-03-10T10:00:00.000-05:00`, plus a
bare date whose dashes sit below position 10. -/
theorem claim5_amended_witness :
    parse_garmin_timestamp (some (Json.str (renderTsNoColon 2021 3 10 10 0 0 0 false 5 0))) =
      parse_garmin_timestamp (some (Json.str (renderTsColon 2021 3 10 10 0 0 0 false 5 0))) ∧
    renderTsNoColon 2021 3 10 10 0 0 0 false 5 0 = "2021-03-10T10:00:00.000-0500".data ∧
    renderTsColon 2021 3 10 10 0 0 0 false 5 0 = "2021-03-10T10:00:00.000-05:00".data ∧
    hasTimezoneIndicator "2020-01-15".data = false :=
  ⟨(claim5_amended.1 2021 3 10 10 0 0 0 5 0 false (by decide) (by decide)).1, rfl, rfl,
   claim5_amended.2 "2020-01-15".data (by decide) (by decide) (by decide)⟩

end GarminCsv
